import Mathlib

/-!
Verification of the unifi controller client library.

The Go sources are shallowly embedded: pure string manipulation becomes Lean
string functions, stateful methods on `*Controller` become functions from a
`Controller` state to an updated state plus a result, and the outcomes of
external effects (the standard library URL parser, request construction, the
HTTP transport) are passed in explicitly as oracle values, so that every
control-flow branch of the source is represented.

Time is modelled as `Int` nanoseconds, with Go's zero `time.Time` at `0`
(cookie `Expires` is a `time.Time`; `a.Before(b)` is strict `<`).
A missing HTTP header is the empty string, matching Go's `Header.Get`.
-/

/-- One minute in nanoseconds, Go's `time.Minute`. -/
def minuteNs : Int := 60000000000

/-- Model of Go's `http.Cookie` as used by the library: name, value and the
`Expires` wall-clock time (nanoseconds; `0` is the zero `time.Time` of a
session cookie delivered without an `Expires` attribute). -/
structure Cookie where
  name : String
  value : String
  expires : Int
deriving Repr, DecidableEq

/-- Model of the `loginInfo` struct of `authentication.go`. -/
structure LoginInfo where
  username : String
  password : String
deriving Repr, DecidableEq

/-- Model of the `Controller` struct (current variant, `part_001`):
base URL, controller type, session cookie, CSRF token and cached login info.
The `httpClient.Timeout` and the transport's `InsecureSkipVerify` flag are
inlined as the two final fields. -/
structure Controller where
  baseUrl : String
  controllerType : String
  cookie : Option Cookie
  csrfToken : String
  loginInfo : LoginInfo
  httpClientTimeout : Int
  insecureSkipVerify : Bool
deriving Repr, DecidableEq

/-- The errors the library can surface.  Distinguished sentinel errors
(`UnauthenticatedError`, `SessionExpiredError`) are constructors, dynamic
`errors.New` sites get one constructor per site. -/
inductive GoError where
  | unauthenticatedError
  | sessionExpiredError
  | transportError (msg : String)
  | loginFailedStatus (code : Nat)
  | missingTokenCookie
  | missingCsrfToken
  | marshalError
  | requestBuildError
  | closeError
  | readError
  | unmarshalError
  | logoutFailedStatus (code : Nat)
  | statusError (code : Nat)
  | urlParseError (url : String)
  | negativeTimeout
deriving Repr, DecidableEq

/-- The parts of an `http.Response` the library inspects: status code, the
response cookies, and the `X-CSRF-token` header (empty string when absent,
as returned by Go's `Header.Get`). -/
structure Response where
  statusCode : Nat
  cookies : List Cookie
  csrfHeader : String
deriving Repr, DecidableEq

/-- Outcome of `httpClient.Do`: a transport error or a response. -/
inductive DoResult where
  | failure (msg : String)
  | success (res : Response)
deriving Repr, DecidableEq

/-- The external outcomes a single `Login` call can observe:
whether `http.NewRequest` succeeds and the result of `httpClient.Do`
(`json.Marshal` of two plain strings cannot fail in Go and has no oracle). -/
structure LoginEnv where
  newRequestOk : Bool
  doResult : DoResult
deriving Repr, DecidableEq

/-- The parts of an `http.Request` that `AuthorizeRequest` writes:
cookies added with `AddCookie` and the `X-CSRF-Token` header. -/
structure Request where
  addedCookies : List (Option Cookie)
  xCsrfToken : Option String
deriving Repr, DecidableEq

/-- `AssertAuthenticated` (`part_000`, lines 139-151): unauthenticated when no
cookie or empty CSRF token is stored; otherwise the cookie expiry is compared
against `time.Now().Add(-1 * time.Minute)` (the source shifts the comparison
time into the past). -/
def assertAuthenticated (c : Controller) (now : Int) : Option GoError :=
  match c.cookie with
  | none => some GoError.unauthenticatedError
  | some ck =>
    if c.csrfToken = "" then some GoError.unauthenticatedError
    else
      let currentTime := now - minuteNs
      if ck.expires < currentTime then some GoError.sessionExpiredError
      else none

/-- The login endpoint (`part_000`, lines 32-37). -/
def loginEndpointUrl (c : Controller) : String :=
  if c.controllerType = "UDM-Pro" then c.baseUrl ++ "/api/auth/login"
  else c.baseUrl ++ "/api/login"

/-- First cookie named TOKEN among the response cookies — the loop of
`part_000`, lines 66-72. -/
def findTokenCookie : List Cookie → Option Cookie
  | [] => none
  | ck :: rest => if ck.name = "TOKEN" then some ck else findTokenCookie rest

/-- `Login` (`part_000`, lines 26-84).  The login info is stored first; on a
200 response the first TOKEN cookie (if any) overwrites the stored cookie,
then the `cookie == nil` check runs against the possibly pre-existing stored
cookie, then the CSRF header is stored and checked against the empty string. -/
def login (c : Controller) (username password : String) (env : LoginEnv) :
    Controller × Option GoError :=
  let c := { c with loginInfo := { username := username, password := password } }
  if env.newRequestOk = false then (c, some GoError.requestBuildError)
  else
    match env.doResult with
    | DoResult.failure msg => (c, some (GoError.transportError msg))
    | DoResult.success res =>
      if res.statusCode ≠ 200 then (c, some (GoError.loginFailedStatus res.statusCode))
      else
        let c := match findTokenCookie res.cookies with
                 | some ck => { c with cookie := some ck }
                 | none => c
        if c.cookie = none then (c, some GoError.missingTokenCookie)
        else
          let c := { c with csrfToken := res.csrfHeader }
          if c.csrfToken = "" then (c, some GoError.missingCsrfToken)
          else (c, none)

/-- `AuthorizeRequest` (`part_000`, lines 117-134): assert the session; on
`SessionExpiredError` retry a login with the cached credentials; if no error
remains, add the stored cookie and set the `X-CSRF-Token` header. -/
def authorizeRequest (c : Controller) (req : Request) (now : Int)
    (loginEnv : LoginEnv) : Controller × Request × Option GoError :=
  match assertAuthenticated c now with
  | some GoError.sessionExpiredError =>
    match login c c.loginInfo.username c.loginInfo.password loginEnv with
    | (c2, none) =>
      (c2, { req with addedCookies := req.addedCookies ++ [c2.cookie],
                      xCsrfToken := some c2.csrfToken }, none)
    | (c2, some e) => (c2, req, some e)
  | none =>
    (c, { req with addedCookies := req.addedCookies ++ [c.cookie],
                   xCsrfToken := some c.csrfToken }, none)
  | some e => (c, req, some e)

/-- The external outcomes one `execute` call can observe (`part_001`,
lines 176-240): marshal of the request body, `http.NewRequest`, the login
performed by a possible transparent re-login inside `AuthorizeRequest`, the
main `httpClient.Do`, the deferred `Body.Close`, `io.ReadAll` and
`json.Unmarshal` of the response body. -/
structure ExecEnv where
  marshalOk : Bool
  newRequestOk : Bool
  now : Int
  loginEnv : LoginEnv
  doResult : DoResult
  closeOk : Bool
  readOk : Bool
  unmarshalOk : Bool
deriving Repr, DecidableEq

/-- `execute` (`part_001`, lines 176-240).  Serializes the optional body,
builds the request, authorizes it (which may re-login), sends it, replaces the
stored CSRF token when the response header is non-empty, and optionally reads
and parses the body.  The deferred `Body.Close` replaces a nil error by the
close error on every path after `Do` succeeds.  Returns the new state, the
response (`none` where Go returns a nil response) and the error. -/
def execute (c : Controller) (_method _endpointUrl : String)
    (hasBody hasResponseData : Bool) (env : ExecEnv) :
    Controller × Option Response × Option GoError :=
  if hasBody = true ∧ env.marshalOk = false then (c, none, some GoError.marshalError)
  else if env.newRequestOk = false then (c, none, some GoError.requestBuildError)
  else
    match authorizeRequest c { addedCookies := [], xCsrfToken := none } env.now env.loginEnv with
    | (c2, _, some e) => (c2, none, some e)
    | (c2, _, none) =>
      match env.doResult with
      | DoResult.failure msg => (c2, none, some (GoError.transportError msg))
      | DoResult.success res =>
        let c3 := if res.csrfHeader ≠ "" then { c2 with csrfToken := res.csrfHeader } else c2
        if hasResponseData = false then
          if env.closeOk then (c3, some res, none)
          else (c3, some res, some GoError.closeError)
        else if env.readOk = false then (c3, some res, some GoError.readError)
        else if env.unmarshalOk = false then (c3, some res, some GoError.unmarshalError)
        else if env.closeOk then (c3, some res, none)
        else (c3, some res, some GoError.closeError)

/-- The logout endpoint (`part_000`, lines 89-95). -/
def logoutEndpointUrl (c : Controller) : String :=
  if c.controllerType = "UDM-Pro" then c.baseUrl ++ "/api/auth/logout"
  else c.baseUrl ++ "/api/logout"

/-- `Logout` (`part_000`, lines 88-113): POST to the logout endpoint through
`execute`; on any error or non-200 status the error is returned at once; only
after a 200 response are the cookie, CSRF token and credentials cleared. -/
def logout (c : Controller) (env : ExecEnv) : Controller × Option GoError :=
  match execute c "POST" (logoutEndpointUrl c) false false env with
  | (c2, _, some e) => (c2, some e)
  | (c2, some res, none) =>
    if res.statusCode ≠ 200 then (c2, some (GoError.logoutFailedStatus res.statusCode))
    else ({ c2 with
             cookie := none
             csrfToken := ""
             loginInfo := { username := "", password := "" } }, none)
  | (c2, none, none) => (c2, none)

/-- Model of the `Site` struct (`part_003`): owning controller and name. -/
structure Site where
  controller : Controller
  name : String
deriving Repr, DecidableEq

/-- `createEndpointUrl` (`part_003`, lines 38-52 and `site.go`): the
variant-dependent site prefix, then the path, then the id when non-empty. -/
def createEndpointUrl (site : Site) (path id : String) : String :=
  let endpoint :=
    if site.controller.controllerType = "UDM-Pro" then
      site.controller.baseUrl ++ "/proxy/network/api/s/" ++ site.name
    else
      site.controller.baseUrl ++ "/api/s/" ++ site.name
  if id = "" then endpoint ++ "/" ++ path
  else endpoint ++ "/" ++ path ++ "/" ++ id

/-- `GetAllFirewallRules` (`pkg/unifi/firewall-rules.go`, lines 268-284):
GET on the site's firewallrule collection through `execute`, then an error for
any status other than 200.  The decoded response body is abstracted; the
updated controller state is returned alongside the error. -/
def getAllFirewallRules (site : Site) (env : ExecEnv) : Controller × Option GoError :=
  match execute site.controller "GET" (createEndpointUrl site "rest/firewallrule" "")
      false true env with
  | (c2, _, some e) => (c2, some e)
  | (c2, some res, none) =>
    if res.statusCode ≠ 200 then (c2, some (GoError.statusError res.statusCode))
    else (c2, none)
  | (c2, none, none) => (c2, none)

/-- `GetAllFirewallGroups` (`part_004`, lines 65-81): GET on the site's
firewallgroup collection through `execute`, then an error for any status other
than 200. -/
def getAllFirewallGroups (site : Site) (env : ExecEnv) : Controller × Option GoError :=
  match execute site.controller "GET" (createEndpointUrl site "rest/firewallgroup" "")
      false true env with
  | (c2, _, some e) => (c2, some e)
  | (c2, some res, none) =>
    if res.statusCode ≠ 200 then (c2, some (GoError.statusError res.statusCode))
    else (c2, none)
  | (c2, none, none) => (c2, none)

/-- `CreateFirewallRule` (`pkg/unifi/firewall-rules.go`, lines 248-264): POST
with the rule serialized as the JSON body on the site's firewallrule
collection through `execute`, then an error for any status other than 200.
The `FirewallRule` payload is a flat record that does not influence control
flow; its `json.Marshal` outcome is the environment's marshal oracle, so the
record itself is not carried in the model. -/
def createFirewallRule (site : Site) (env : ExecEnv) : Controller × Option GoError :=
  match execute site.controller "POST" (createEndpointUrl site "rest/firewallrule" "")
      true true env with
  | (c2, _, some e) => (c2, some e)
  | (c2, some res, none) =>
    if res.statusCode ≠ 200 then (c2, some (GoError.statusError res.statusCode))
    else (c2, none)
  | (c2, none, none) => (c2, none)

/-- `GetFirewallRule` (`pkg/unifi/firewall-rules.go`, lines 290-306): GET on
the rule with the given id through `execute`, then an error for any status
other than 200. -/
def getFirewallRule (site : Site) (id : String) (env : ExecEnv) : Controller × Option GoError :=
  match execute site.controller "GET" (createEndpointUrl site "rest/firewallrule" id)
      false true env with
  | (c2, _, some e) => (c2, some e)
  | (c2, some res, none) =>
    if res.statusCode ≠ 200 then (c2, some (GoError.statusError res.statusCode))
    else (c2, none)
  | (c2, none, none) => (c2, none)

/-- `UpdateFirewallRule` (`pkg/unifi/firewall-rules.go`, lines 310-329): PUT
with the rule as JSON body on the rule with the given id through `execute`,
then an error for any status other than 200. -/
def updateFirewallRule (site : Site) (id : String) (env : ExecEnv) : Controller × Option GoError :=
  match execute site.controller "PUT" (createEndpointUrl site "rest/firewallrule" id)
      true true env with
  | (c2, _, some e) => (c2, some e)
  | (c2, some res, none) =>
    if res.statusCode ≠ 200 then (c2, some (GoError.statusError res.statusCode))
    else (c2, none)
  | (c2, none, none) => (c2, none)

/-- `DeleteFirewallRule` (`pkg/unifi/firewall-rules.go`, lines 333-349):
DELETE on the rule with the given id through `execute`, then an error for any
status other than 200. -/
def deleteFirewallRule (site : Site) (id : String) (env : ExecEnv) : Controller × Option GoError :=
  match execute site.controller "DELETE" (createEndpointUrl site "rest/firewallrule" id)
      false true env with
  | (c2, _, some e) => (c2, some e)
  | (c2, some res, none) =>
    if res.statusCode ≠ 200 then (c2, some (GoError.statusError res.statusCode))
    else (c2, none)
  | (c2, none, none) => (c2, none)

/-- `CreateFirewallGroup` (`part_004`, lines 45-61): POST with the group as
JSON body on the site's firewallgroup collection through `execute`, then an
error for any status other than 200. -/
def createFirewallGroup (site : Site) (env : ExecEnv) : Controller × Option GoError :=
  match execute site.controller "POST" (createEndpointUrl site "rest/firewallgroup" "")
      true true env with
  | (c2, _, some e) => (c2, some e)
  | (c2, some res, none) =>
    if res.statusCode ≠ 200 then (c2, some (GoError.statusError res.statusCode))
    else (c2, none)
  | (c2, none, none) => (c2, none)

/-- `GetFirewallGroup` (`part_004`, lines 87-103): GET on the group with the
given id through `execute`, then an error for any status other than 200. -/
def getFirewallGroup (site : Site) (id : String) (env : ExecEnv) : Controller × Option GoError :=
  match execute site.controller "GET" (createEndpointUrl site "rest/firewallgroup" id)
      false true env with
  | (c2, _, some e) => (c2, some e)
  | (c2, some res, none) =>
    if res.statusCode ≠ 200 then (c2, some (GoError.statusError res.statusCode))
    else (c2, none)
  | (c2, none, none) => (c2, none)

/-- `UpdateFirewallGroup` (`part_004`, lines 107-126): PUT with the group as
JSON body on the group with the given id through `execute`, then an error for
any status other than 200. -/
def updateFirewallGroup (site : Site) (id : String) (env : ExecEnv) : Controller × Option GoError :=
  match execute site.controller "PUT" (createEndpointUrl site "rest/firewallgroup" id)
      true true env with
  | (c2, _, some e) => (c2, some e)
  | (c2, some res, none) =>
    if res.statusCode ≠ 200 then (c2, some (GoError.statusError res.statusCode))
    else (c2, none)
  | (c2, none, none) => (c2, none)

/-- `DeleteFirewallGroup` (`part_004`, lines 130-146): DELETE on the group
with the given id through `execute`, then an error for any status other
than 200. -/
def deleteFirewallGroup (site : Site) (id : String) (env : ExecEnv) : Controller × Option GoError :=
  match execute site.controller "DELETE" (createEndpointUrl site "rest/firewallgroup" id)
      false true env with
  | (c2, _, some e) => (c2, some e)
  | (c2, some res, none) =>
    if res.statusCode ≠ 200 then (c2, some (GoError.statusError res.statusCode))
    else (c2, none)
  | (c2, none, none) => (c2, none)

/-- Model of the `ControllerBuilder` struct of `part_006`. -/
structure ControllerBuilder where
  baseUrl : String
  controllerType : String
  requestTimeout : Int
  skipTLSVerification : Bool
deriving Repr, DecidableEq

/-- Result of `Build` (`part_006`): an error or a built controller. -/
inductive BuildResult where
  | err (e : GoError)
  | ok (c : Controller)
deriving Repr, DecidableEq

/-- `Build` (`part_006`, lines 46-80): fail when `url.ParseRequestURI` rejects
the base URL (its outcome is the oracle `parseOk`) or the timeout is negative;
otherwise produce a controller carrying the configured base URL, type, client
timeout and TLS flag, with empty session state (Go zero values). -/
def build (b : ControllerBuilder) (parseOk : Bool) : BuildResult :=
  if parseOk = false then BuildResult.err (GoError.urlParseError b.baseUrl)
  else if b.requestTimeout < 0 then BuildResult.err GoError.negativeTimeout
  else BuildResult.ok
    { baseUrl := b.baseUrl, controllerType := b.controllerType,
      cookie := none, csrfToken := "",
      loginInfo := { username := "", password := "" },
      httpClientTimeout := b.requestTimeout,
      insecureSkipVerify := b.skipTLSVerification }

namespace V2

/-!
The interface-based builder variant of `src/controller.go`, whose `Build`
reads `builder.controller.httpClient.Timeout` (line 102) before the
`httpClient == nil` check (line 107).
-/

/-- Model of Go's `http.Client` as used by `src/controller.go`: the timeout
and the transport (`none` models a nil `Transport`; a transport is reduced to
its `InsecureSkipVerify` flag). -/
structure HttpClient where
  timeout : Int
  transport : Option Bool
deriving Repr, DecidableEq

/-- The `Controller` struct of `src/controller.go`: the `httpClient` and
`httpTransport` pointers may be nil (`none`). -/
structure Controller where
  baseUrl : String
  controllerType : String
  cookie : Option Cookie
  csrfToken : String
  httpClient : Option HttpClient
  httpTransport : Option Bool
  loginInfo : LoginInfo
deriving Repr, DecidableEq

/-- The `controllerBuilder` struct of `src/controller.go`. -/
structure ControllerBuilder where
  controller : Controller
deriving Repr, DecidableEq

/-- `NewControllerBuilder` (`src/controller.go`, lines 43-47): wraps a zero
`Controller` (nil client, nil transport, empty strings). -/
def newControllerBuilder : ControllerBuilder :=
  { controller :=
    { baseUrl := "", controllerType := "", cookie := none, csrfToken := "",
      httpClient := none, httpTransport := none,
      loginInfo := { username := "", password := "" } } }

/-- Builder `SetBaseUrl` (`src/controller.go`, lines 50-53). -/
def setBaseUrl (b : ControllerBuilder) (baseUrl : String) : ControllerBuilder :=
  { b with controller := { b.controller with baseUrl := baseUrl } }

/-- Builder `SetControllerType` (`src/controller.go`, lines 57-60). -/
def setControllerType (b : ControllerBuilder) (controllerType : String) : ControllerBuilder :=
  { b with controller := { b.controller with controllerType := controllerType } }

/-- Builder `SetRequestTimout` (`src/controller.go`, lines 63-73): creates the
http client when it does not exist yet, otherwise updates its timeout. -/
def setRequestTimout (b : ControllerBuilder) (timeout : Int) : ControllerBuilder :=
  match b.controller.httpClient with
  | none =>
    { b with controller :=
      { b.controller with httpClient := some { timeout := timeout, transport := none } } }
  | some client =>
    { b with controller :=
      { b.controller with httpClient := some { client with timeout := timeout } } }

/-- Builder `SetTlsVerification` (`src/controller.go`, lines 76-86): creates
the transport when it does not exist yet, otherwise updates its flag. -/
def setTlsVerification (b : ControllerBuilder) (verify : Bool) : ControllerBuilder :=
  match b.controller.httpTransport with
  | none => { b with controller := { b.controller with httpTransport := some (!verify) } }
  | some _ => { b with controller := { b.controller with httpTransport := some (!verify) } }

/-- Outcome of this variant's `Build`: a nil-pointer dereference (Go run-time
panic), an error, or a built controller. -/
inductive BuildOutcome where
  | panicNilClient
  | err (e : GoError)
  | ok (c : Controller)
deriving Repr, DecidableEq

/-- `Build` (`src/controller.go`, lines 89-116).  After URL validation it
evaluates `builder.controller.httpClient.Timeout`, which dereferences a nil
pointer when no client was ever created; the later `httpClient == nil` branch
(lines 107-110) is kept literally from the source. -/
def build (b : ControllerBuilder) (parseOk : Bool) : BuildOutcome :=
  if parseOk = false then BuildOutcome.err (GoError.urlParseError b.controller.baseUrl)
  else
    match b.controller.httpClient with
    | none => BuildOutcome.panicNilClient
    | some client =>
      if client.timeout < 0 then BuildOutcome.err GoError.negativeTimeout
      else if b.controller.httpClient = none then
        BuildOutcome.ok { b.controller with
          httpClient := some { timeout := 0, transport := b.controller.httpTransport } }
      else
        BuildOutcome.ok { b.controller with
          httpClient := some { client with transport := b.controller.httpTransport } }

end V2

/-!
Concrete fixtures used by witnesses and counterexamples.  Times are plain
`Int` nanosecond values; only their order relative to `minuteNs` matters.
-/

/-- A TOKEN cookie expiring at the given instant. -/
def tokenCookie (e : Int) : Cookie := { name := "TOKEN", value := "v", expires := e }

/-- A configured controller with no session yet. -/
def baseController : Controller :=
  { baseUrl := "https://unifi", controllerType := "UDM-Pro", cookie := none,
    csrfToken := "", loginInfo := { username := "u", password := "p" },
    httpClientTimeout := 0, insecureSkipVerify := false }

/-- A sample current instant. -/
def now0 : Int := 1000000000000

/-- An expiry instant far after `now0`. -/
def farFuture : Int := 2000000000000

/-- A controller holding a session that is valid at `now0`. -/
def validState : Controller :=
  { baseController with cookie := some (tokenCookie farFuture), csrfToken := "t1" }

/-- A login environment whose transport fails (the re-login oracle for
scenarios in which no re-login happens). -/
def failingLoginEnv : LoginEnv :=
  { newRequestOk := true, doResult := DoResult.failure "connection refused" }

/-- Claim C1 (evaluation at the failing input): a session whose cookie expired
30 seconds ago -- a time strictly after the expiry -- is still reported as
authenticated, because `AssertAuthenticated` compares the expiry against
`time.Now().Add(-1 * time.Minute)`, which extends the session one minute past
its expiry instead of expiring it one minute early as the comment above the
check ("Mark session as expired 1 minute before expiration") states. -/
theorem c1_expired_session_reported_valid :
    (tokenCookie 1000).expires < 1000 + 30000000000 ∧
    assertAuthenticated
      { baseController with cookie := some (tokenCookie 1000), csrfToken := "t" }
      (1000 + 30000000000) = none := by
  exact ⟨by decide, by decide⟩

/-- Claim C10: a 200 login response carrying a TOKEN cookie with the zero
expiry time and a non-empty CSRF header is accepted by `Login` without any
expiry check, and the resulting state is reported `SessionExpiredError` by
`AssertAuthenticated` at every instant more than one minute after the zero
time -- that is, immediately, even directly after the successful login. -/
theorem c10_zero_expiry_expired_after_login :
    ∀ (c : Controller) (u p : String) (res : Response) (now : Int) (ck : Cookie)
      (env : LoginEnv),
      res.statusCode = 200 → findTokenCookie res.cookies = some ck →
      ck.expires = 0 → res.csrfHeader ≠ "" → minuteNs < now →
      env.newRequestOk = true → env.doResult = DoResult.success res →
      (login c u p env).2 = none ∧
      assertAuthenticated (login c u p env).1 now = some GoError.sessionExpiredError := by
  intro c u p res now ck env hst hfind hexp hcsrf hnow hreq hdo
  have h60 : (0 : Int) < now - minuteNs := by
    simp only [minuteNs] at hnow ⊢; omega
  simp [login, assertAuthenticated, hreq, hdo, hst, hfind, hexp, hcsrf, h60]

/-- Witness for C10 at a concrete login response and instant. -/
theorem c10_witness :
    (login baseController "u" "p"
      { newRequestOk := true,
        doResult := DoResult.success
          { statusCode := 200, cookies := [tokenCookie 0], csrfHeader := "t" } }).2 = none ∧
    assertAuthenticated
      (login baseController "u" "p"
        { newRequestOk := true,
          doResult := DoResult.success
            { statusCode := 200, cookies := [tokenCookie 0], csrfHeader := "t" } }).1
      now0 = some GoError.sessionExpiredError :=
  c10_zero_expiry_expired_after_login baseController "u" "p"
    { statusCode := 200, cookies := [tokenCookie 0], csrfHeader := "t" }
    now0 (tokenCookie 0)
    { newRequestOk := true,
      doResult := DoResult.success
        { statusCode := 200, cookies := [tokenCookie 0], csrfHeader := "t" } }
    rfl (by decide) rfl (by decide) (by decide) rfl rfl

/-- Claim C2 counterexample: with a cookie from an earlier login still stored,
`Login` against a 200 response that carries no TOKEN cookie but does carry a
CSRF header returns success, keeping the stale cookie -- the claim demands an
error whenever the response carries no cookie named TOKEN. -/
theorem c2_stale_cookie_missing_token_not_detected :
    (login { baseController with cookie := some (tokenCookie 1000), csrfToken := "t1" }
      "u" "p"
      { newRequestOk := true,
        doResult := DoResult.success
          { statusCode := 200, cookies := [], csrfHeader := "tok" } }).2 = none ∧
    (login { baseController with cookie := some (tokenCookie 1000), csrfToken := "t1" }
      "u" "p"
      { newRequestOk := true,
        doResult := DoResult.success
          { statusCode := 200, cookies := [], csrfHeader := "tok" } }).1.cookie
      = some (tokenCookie 1000) := by
  exact ⟨by decide, by decide⟩

/-- Claim C2 as amended: `Login` succeeds exactly when request construction
succeeded, the response arrived with status 200, the response carries a TOKEN
cookie or a cookie from an earlier login is still stored, and the response
carries a non-empty X-CSRF-token header.  In particular every non-200 status,
every missing CSRF header, and a missing TOKEN cookie on a controller with no
stored cookie produce an error; but a missing TOKEN cookie is not detected
when a stale cookie is stored. -/
theorem c2_login_error_characterization :
    ∀ (c : Controller) (u p : String) (env : LoginEnv),
      (login c u p env).2 = none ↔
        env.newRequestOk = true ∧
        ∃ res, env.doResult = DoResult.success res ∧ res.statusCode = 200 ∧
          (c.cookie ≠ none ∨ findTokenCookie res.cookies ≠ none) ∧
          res.csrfHeader ≠ "" := by
  intro c u p env
  cases hreq : env.newRequestOk with
  | false => simp [login, hreq]
  | true =>
    cases hdo : env.doResult with
    | failure msg => simp [login, hreq, hdo]
    | success res =>
      by_cases hst : res.statusCode = 200
      · cases hfind : findTokenCookie res.cookies with
        | some ck =>
          by_cases hcs : res.csrfHeader = "" <;>
            simp [login, hreq, hdo, hst, hfind, hcs]
        | none =>
          cases hck : c.cookie with
          | none => simp [login, hreq, hdo, hst, hfind, hck]
          | some old =>
            by_cases hcs : res.csrfHeader = "" <;>
              simp [login, hreq, hdo, hst, hfind, hck, hcs]
      · simp [login, hreq, hdo, hst]

/-- Witness for the amended C2: both directions at concrete inputs -- a fresh
controller fails on a missing TOKEN cookie, and succeeds on a complete
response. -/
theorem c2_witness :
    (login baseController "u" "p"
      { newRequestOk := true,
        doResult := DoResult.success
          { statusCode := 200, cookies := [tokenCookie 1000], csrfHeader := "t" } }).2
      = none :=
  (c2_login_error_characterization baseController "u" "p"
    { newRequestOk := true,
      doResult := DoResult.success
        { statusCode := 200, cookies := [tokenCookie 1000], csrfHeader := "t" } }).mpr
    ⟨rfl, { statusCode := 200, cookies := [tokenCookie 1000], csrfHeader := "t" },
      rfl, rfl, Or.inr (by decide), by decide⟩

/-- Helper: a missing cookie or an empty CSRF token makes
`AssertAuthenticated` return the unauthenticated sentinel. -/
theorem assertAuthenticated_unauthenticated :
    ∀ (c : Controller) (now : Int), (c.cookie = none ∨ c.csrfToken = "") →
      assertAuthenticated c now = some GoError.unauthenticatedError := by
  intro c now h
  rcases h with h | h
  · simp [assertAuthenticated, h]
  · cases hck : c.cookie <;> simp [assertAuthenticated, hck, h]

/-- Helper: with a valid session, `AuthorizeRequest` leaves the controller
unchanged and attaches the stored cookie and CSRF token. -/
theorem authorizeRequest_of_valid :
    ∀ (c : Controller) (req : Request) (now : Int) (lenv : LoginEnv),
      assertAuthenticated c now = none →
      authorizeRequest c req now lenv =
        (c, { req with addedCookies := req.addedCookies ++ [c.cookie],
                       xCsrfToken := some c.csrfToken }, none) := by
  intro c req now lenv h
  simp [authorizeRequest, h]

/-- Helper: with a valid session, the state produced by `execute` is the
original state with the CSRF token replaced by the response header when the
returned response carries a non-empty one, and the original state otherwise
(in particular whenever no response was produced). -/
theorem execute_of_valid :
    ∀ (c : Controller) (m u : String) (hb hrd : Bool) (env : ExecEnv),
      assertAuthenticated c env.now = none →
      (execute c m u hb hrd env).1 =
        (match (execute c m u hb hrd env).2.1 with
         | some res => if res.csrfHeader ≠ "" then { c with csrfToken := res.csrfHeader } else c
         | none => c) := by
  intro c m u hb hrd env h
  have ha := authorizeRequest_of_valid c { addedCookies := [], xCsrfToken := none }
    env.now env.loginEnv h
  simp only [execute, ha]
  repeat' split <;> try simp_all

/-- Claim C4: with a valid session `AuthorizeRequest` attaches the stored
cookie and CSRF token and changes nothing; with an expired session it first
re-logs-in using the cached credentials and, when that login succeeds,
attaches the new cookie and token; with no cookie or an empty token it
returns `UnauthenticatedError` and attaches nothing. -/
theorem c4_authorize_request_cases :
    ∀ (c : Controller) (req : Request) (now : Int) (lenv : LoginEnv),
      (assertAuthenticated c now = none →
        authorizeRequest c req now lenv =
          (c, { req with addedCookies := req.addedCookies ++ [c.cookie],
                         xCsrfToken := some c.csrfToken }, none)) ∧
      (assertAuthenticated c now = some GoError.sessionExpiredError →
        ∀ c2, login c c.loginInfo.username c.loginInfo.password lenv = (c2, none) →
          authorizeRequest c req now lenv =
            (c2, { req with addedCookies := req.addedCookies ++ [c2.cookie],
                            xCsrfToken := some c2.csrfToken }, none)) ∧
      ((c.cookie = none ∨ c.csrfToken = "") →
        authorizeRequest c req now lenv = (c, req, some GoError.unauthenticatedError)) := by
  intro c req now lenv
  refine ⟨authorizeRequest_of_valid c req now lenv, ?_, ?_⟩
  · intro hexp c2 hlogin
    simp [authorizeRequest, hexp, hlogin]
  · intro hun
    have h := assertAuthenticated_unauthenticated c now hun
    simp [authorizeRequest, h]

/-- A controller whose session cookie carries the zero expiry time, hence has
expired at `now0`. -/
def expiredState : Controller :=
  { baseController with cookie := some (tokenCookie 0), csrfToken := "t1" }

/-- A login oracle delivering a fresh cookie and CSRF token `t2`. -/
def reloginEnv : LoginEnv :=
  { newRequestOk := true,
    doResult := DoResult.success
      { statusCode := 200, cookies := [tokenCookie farFuture], csrfHeader := "t2" } }

/-- Witness for C4 in the re-login case: an expired session is replaced by the
fresh login result, whose cookie and token are attached to the request. -/
theorem c4_witness :
    authorizeRequest expiredState { addedCookies := [], xCsrfToken := none } now0 reloginEnv
      = ({ validState with csrfToken := "t2" },
         { addedCookies := [some (tokenCookie farFuture)], xCsrfToken := some "t2" }, none) :=
  (c4_authorize_request_cases expiredState { addedCookies := [], xCsrfToken := none }
      now0 reloginEnv).2.1
    (by decide) { validState with csrfToken := "t2" } (by decide)

/-- A response whose X-CSRF-token header is absent. -/
def mainResNoCsrf : Response := { statusCode := 200, cookies := [], csrfHeader := "" }

/-- An `execute` environment in which the session will be re-established
through `reloginEnv` and the main response carries no CSRF header. -/
def c5Env : ExecEnv :=
  { marshalOk := true, newRequestOk := true, now := now0, loginEnv := reloginEnv,
    doResult := DoResult.success mainResNoCsrf, closeOk := true, readOk := true,
    unmarshalOk := true }

/-- Claim C5 counterexample: starting from an expired session, `execute`
receives a response with no X-CSRF-token header, yet the stored cookie and
CSRF token afterwards differ from before -- the transparent re-login inside
`AuthorizeRequest` replaced them, so the fields are not left unchanged for
every controller state. -/
theorem c5_relogin_changes_state_without_header :
    (execute expiredState "GET" "https://unifi/x" false false c5Env).2.1
        = some mainResNoCsrf ∧
    mainResNoCsrf.csrfHeader = "" ∧
    (execute expiredState "GET" "https://unifi/x" false false c5Env).1.cookie
        ≠ expiredState.cookie ∧
    (execute expiredState "GET" "https://unifi/x" false false c5Env).1.csrfToken
        ≠ expiredState.csrfToken := by
  exact ⟨by decide, by decide, by decide, by decide⟩

/-- Claim C5 as amended: provided the session is valid when `execute` is
called (so no transparent re-login happens), if the received response carries
a non-empty X-CSRF-token header the resulting state is the original with only
the CSRF token replaced by that header value, if it carries none the state is
exactly the original, and if no response was received the state is also
exactly the original -- cookie, credentials, base URL and controller type are
untouched in every case. -/
theorem c5_execute_frame :
    ∀ (c : Controller) (m u : String) (hb hrd : Bool) (env : ExecEnv),
      assertAuthenticated c env.now = none →
      (∀ res, (execute c m u hb hrd env).2.1 = some res →
        (execute c m u hb hrd env).1 =
          (if res.csrfHeader ≠ "" then { c with csrfToken := res.csrfHeader } else c)) ∧
      ((execute c m u hb hrd env).2.1 = none → (execute c m u hb hrd env).1 = c) := by
  intro c m u hb hrd env h
  have he := execute_of_valid c m u hb hrd env h
  constructor
  · intro res hres
    rw [he, hres]
  · intro hnone
    rw [he, hnone]

/-- An `execute` environment with a valid main response rotating the CSRF
token to `t3`. -/
def rotateEnv : ExecEnv :=
  { marshalOk := true, newRequestOk := true, now := now0, loginEnv := failingLoginEnv,
    doResult := DoResult.success { statusCode := 200, cookies := [], csrfHeader := "t3" },
    closeOk := true, readOk := true, unmarshalOk := true }

/-- Witness for the amended C5: a valid session, a response rotating the
token -- only the CSRF token changes. -/
theorem c5_witness :
    (execute validState "GET" "https://unifi/x" false false rotateEnv).1
      = { validState with csrfToken := "t3" } :=
  (c5_execute_frame validState "GET" "https://unifi/x" false false rotateEnv
      (by decide)).1
    { statusCode := 200, cookies := [], csrfHeader := "t3" } (by decide)

/-- Helper: whenever `execute` reports no error it also returns a response
(the nil-response success case cannot occur). -/
theorem execute_no_error_has_response :
    ∀ (c : Controller) (m u : String) (hb hrd : Bool) (env : ExecEnv),
      (execute c m u hb hrd env).2.2 = none → (execute c m u hb hrd env).2.1.isSome := by
  intro c m u hb hrd env
  simp only [execute]
  repeat' split <;> try simp_all

/-- An `execute` environment whose request pipeline works but whose response
has status 500 and no CSRF header. -/
def errEnv500 : ExecEnv :=
  { marshalOk := true, newRequestOk := true, now := now0, loginEnv := failingLoginEnv,
    doResult := DoResult.success { statusCode := 500, cookies := [], csrfHeader := "" },
    closeOk := true, readOk := true, unmarshalOk := true }

/-- Claim C3 counterexample: a logout request answered with status 500 makes
`Logout` return an error while the stored cookie, CSRF token and credentials
are all left in place -- the local session state is not cleared
unconditionally. -/
theorem c3_error_keeps_session_state :
    (logout validState errEnv500).2 = some (GoError.logoutFailedStatus 500) ∧
    (logout validState errEnv500).1.cookie = some (tokenCookie farFuture) ∧
    (logout validState errEnv500).1.csrfToken = "t1" ∧
    (logout validState errEnv500).1.loginInfo = { username := "u", password := "p" } := by
  exact ⟨by decide, by decide, by decide, by decide⟩

/-- Claim C3 as amended: `Logout` clears the cookie, CSRF token and stored
credentials exactly when it returns success; on every error outcome
(request-build, authorization, transport, or non-200 status) it returns the
error and the state is whatever the request pipeline left, with no clearing
performed. -/
theorem c3_logout_clears_exactly_on_success :
    ∀ (c : Controller) (env : ExecEnv),
      ((logout c env).2 = none →
        (logout c env).1.cookie = none ∧ (logout c env).1.csrfToken = "" ∧
        (logout c env).1.loginInfo = { username := "", password := "" }) ∧
      (∀ e, (logout c env).2 = some e →
        (logout c env).1 = (execute c "POST" (logoutEndpointUrl c) false false env).1) := by
  intro c env
  have hne := execute_no_error_has_response c "POST" (logoutEndpointUrl c) false false env
  rcases hE : execute c "POST" (logoutEndpointUrl c) false false env with ⟨c2, r, e⟩
  rw [hE] at hne
  simp only at hne
  cases e with
  | some err => constructor <;> simp [logout, hE]
  | none =>
    cases r with
    | none => simp at hne
    | some res =>
      by_cases hst : res.statusCode = 200 <;> constructor <;> simp [logout, hE, hst]

/-- An `execute` environment whose pipeline succeeds with a 200 response. -/
def env200 : ExecEnv :=
  { marshalOk := true, newRequestOk := true, now := now0, loginEnv := failingLoginEnv,
    doResult := DoResult.success { statusCode := 200, cookies := [], csrfHeader := "" },
    closeOk := true, readOk := true, unmarshalOk := true }

/-- Witness for the amended C3: a successful logout leaves the cleared
state. -/
theorem c3_witness :
    (logout validState env200).1.cookie = none ∧
    (logout validState env200).1.csrfToken = "" ∧
    (logout validState env200).1.loginInfo = { username := "", password := "" } :=
  (c3_logout_clears_exactly_on_success validState env200).1 (by decide)

/-- An `execute` environment whose pipeline succeeds with a 201 response. -/
def env201 : ExecEnv :=
  { marshalOk := true, newRequestOk := true, now := now0, loginEnv := failingLoginEnv,
    doResult := DoResult.success { statusCode := 201, cookies := [], csrfHeader := "" },
    closeOk := true, readOk := true, unmarshalOk := true }

/-- The default site of a controller with a valid session. -/
def defaultSite : Site := { controller := validState, name := "default" }

/-- Claim C6 counterexample: a 201 response -- a success (2xx) status -- makes
both firewall-rule and firewall-group list operations return an error, because
the source compares the status against exactly 200. -/
theorem c6_status_201_errors :
    (getAllFirewallRules defaultSite env201).2 = some (GoError.statusError 201) ∧
    (getAllFirewallGroups defaultSite env201).2 = some (GoError.statusError 201) := by
  exact ⟨by decide, by decide⟩

/-- Helper: the status gate shared by every firewall CRUD function --
propagate an `execute` error, then error on any status other than 200 --
succeeds exactly when `execute` reported no error and any returned response
has status 200. -/
theorem crud_gate_iff (t : Controller × Option Response × Option GoError) :
    (match t with
     | (c2, _, some e) => (c2, some e)
     | (c2, some res, none) =>
       if res.statusCode ≠ 200 then (c2, some (GoError.statusError res.statusCode))
       else (c2, none)
     | (c2, none, none) => (c2, none)).2 = none ↔
    t.2.2 = none ∧ (∀ res, t.2.1 = some res → res.statusCode = 200) := by
  obtain ⟨c2, r, e⟩ := t
  cases e with
  | some err => simp
  | none =>
    cases r with
    | none => simp
    | some res => by_cases hst : res.statusCode = 200 <;> simp [hst]

/-- Claim C6 as amended: every firewall rule and firewall group CRUD
operation -- create, list, get, update and delete, for both resources --
succeeds exactly when its request pipeline (marshal of the body where one is
sent, authorization, transport) reports no error and the response status is
exactly 200; every other status, 2xx included, yields an error. -/
theorem c6_crud_success_iff_200 :
    ∀ (site : Site) (id : String) (env : ExecEnv),
      ((createFirewallRule site env).2 = none ↔
        (execute site.controller "POST" (createEndpointUrl site "rest/firewallrule" "")
            true true env).2.2 = none ∧
        (∀ res, (execute site.controller "POST" (createEndpointUrl site "rest/firewallrule" "")
            true true env).2.1 = some res → res.statusCode = 200)) ∧
      ((getAllFirewallRules site env).2 = none ↔
        (execute site.controller "GET" (createEndpointUrl site "rest/firewallrule" "")
            false true env).2.2 = none ∧
        (∀ res, (execute site.controller "GET" (createEndpointUrl site "rest/firewallrule" "")
            false true env).2.1 = some res → res.statusCode = 200)) ∧
      ((getFirewallRule site id env).2 = none ↔
        (execute site.controller "GET" (createEndpointUrl site "rest/firewallrule" id)
            false true env).2.2 = none ∧
        (∀ res, (execute site.controller "GET" (createEndpointUrl site "rest/firewallrule" id)
            false true env).2.1 = some res → res.statusCode = 200)) ∧
      ((updateFirewallRule site id env).2 = none ↔
        (execute site.controller "PUT" (createEndpointUrl site "rest/firewallrule" id)
            true true env).2.2 = none ∧
        (∀ res, (execute site.controller "PUT" (createEndpointUrl site "rest/firewallrule" id)
            true true env).2.1 = some res → res.statusCode = 200)) ∧
      ((deleteFirewallRule site id env).2 = none ↔
        (execute site.controller "DELETE" (createEndpointUrl site "rest/firewallrule" id)
            false true env).2.2 = none ∧
        (∀ res, (execute site.controller "DELETE" (createEndpointUrl site "rest/firewallrule" id)
            false true env).2.1 = some res → res.statusCode = 200)) ∧
      ((createFirewallGroup site env).2 = none ↔
        (execute site.controller "POST" (createEndpointUrl site "rest/firewallgroup" "")
            true true env).2.2 = none ∧
        (∀ res, (execute site.controller "POST" (createEndpointUrl site "rest/firewallgroup" "")
            true true env).2.1 = some res → res.statusCode = 200)) ∧
      ((getAllFirewallGroups site env).2 = none ↔
        (execute site.controller "GET" (createEndpointUrl site "rest/firewallgroup" "")
            false true env).2.2 = none ∧
        (∀ res, (execute site.controller "GET" (createEndpointUrl site "rest/firewallgroup" "")
            false true env).2.1 = some res → res.statusCode = 200)) ∧
      ((getFirewallGroup site id env).2 = none ↔
        (execute site.controller "GET" (createEndpointUrl site "rest/firewallgroup" id)
            false true env).2.2 = none ∧
        (∀ res, (execute site.controller "GET" (createEndpointUrl site "rest/firewallgroup" id)
            false true env).2.1 = some res → res.statusCode = 200)) ∧
      ((updateFirewallGroup site id env).2 = none ↔
        (execute site.controller "PUT" (createEndpointUrl site "rest/firewallgroup" id)
            true true env).2.2 = none ∧
        (∀ res, (execute site.controller "PUT" (createEndpointUrl site "rest/firewallgroup" id)
            true true env).2.1 = some res → res.statusCode = 200)) ∧
      ((deleteFirewallGroup site id env).2 = none ↔
        (execute site.controller "DELETE" (createEndpointUrl site "rest/firewallgroup" id)
            false true env).2.2 = none ∧
        (∀ res, (execute site.controller "DELETE" (createEndpointUrl site "rest/firewallgroup" id)
            false true env).2.1 = some res → res.statusCode = 200)) := by
  intro site id env
  refine ⟨?_, ?_, ?_, ?_, ?_, ?_, ?_, ?_, ?_, ?_⟩ <;>
    · simp only [createFirewallRule, getAllFirewallRules, getFirewallRule, updateFirewallRule,
        deleteFirewallRule, createFirewallGroup, getAllFirewallGroups, getFirewallGroup,
        updateFirewallGroup, deleteFirewallGroup]
      exact crud_gate_iff _

/-- Witness for the amended C6: a pipeline succeeding with a 200 response
yields success both for a list operation (no body) and for a create operation
(whose body passes the marshal step). -/
theorem c6_witness :
    (getAllFirewallRules defaultSite env200).2 = none ∧
    (createFirewallRule defaultSite env200).2 = none :=
  ⟨((c6_crud_success_iff_200 defaultSite "" env200).2.1).mpr (by decide),
   ((c6_crud_success_iff_200 defaultSite "" env200).1).mpr (by decide)⟩

/-- Claim C7: `Build` (builder variant of `part_006`) returns no controller
exactly when the base URL fails to parse (oracle `parseOk`) or the configured
timeout is negative, and otherwise returns a controller carrying the
configured base URL, controller type, client timeout and TLS flag, with empty
session state. -/
theorem c7_build_characterization :
    ∀ (b : ControllerBuilder) (parseOk : Bool),
      ((∀ c, build b parseOk ≠ BuildResult.ok c) ↔ (parseOk = false ∨ b.requestTimeout < 0)) ∧
      (∀ c, build b parseOk = BuildResult.ok c →
        c.baseUrl = b.baseUrl ∧ c.controllerType = b.controllerType ∧
        c.httpClientTimeout = b.requestTimeout ∧
        c.insecureSkipVerify = b.skipTLSVerification ∧
        c.cookie = none ∧ c.csrfToken = "") := by
  intro b parseOk
  constructor
  · cases parseOk with
    | false => simp [build]
    | true => by_cases ht : b.requestTimeout < 0 <;> simp [build, ht]
  · intro c hc
    cases parseOk with
    | false => simp [build] at hc
    | true =>
      by_cases ht : b.requestTimeout < 0
      · simp [build, ht] at hc
      · simp [build, ht] at hc
        subst hc
        simp

/-- A valid builder configuration: 30 second timeout, parsable URL. -/
def c7Builder : ControllerBuilder :=
  { baseUrl := "https://unifi", controllerType := "UDM-Pro",
    requestTimeout := 30000000000, skipTLSVerification := false }

/-- The controller `build` produces from `c7Builder`. -/
def c7Built : Controller :=
  { baseUrl := "https://unifi", controllerType := "UDM-Pro", cookie := none,
    csrfToken := "", loginInfo := { username := "", password := "" },
    httpClientTimeout := 30000000000, insecureSkipVerify := false }

/-- Witness for C7: the concretely built controller carries its builder's
configuration. -/
theorem c7_witness :
    c7Built.baseUrl = c7Builder.baseUrl ∧ c7Built.controllerType = c7Builder.controllerType ∧
    c7Built.httpClientTimeout = c7Builder.requestTimeout ∧
    c7Built.insecureSkipVerify = c7Builder.skipTLSVerification ∧
    c7Built.cookie = none ∧ c7Built.csrfToken = "" :=
  (c7_build_characterization c7Builder true).2 c7Built (by decide)

/-- Claim C8: the endpoint URL is the base URL, the UDM-Pro proxy prefix or
the plain API prefix, the site name, the path, and the id exactly when the id
is non-empty. -/
theorem c8_create_endpoint_url :
    ∀ (site : Site) (path id : String),
      createEndpointUrl site path id =
        (if site.controller.controllerType = "UDM-Pro" then
          site.controller.baseUrl ++ "/proxy/network/api/s/" ++ site.name
         else site.controller.baseUrl ++ "/api/s/" ++ site.name)
        ++ "/" ++ path ++ (if id = "" then "" else "/" ++ id) := by
  intro site path id
  simp only [createEndpointUrl]
  by_cases hid : id = "" <;> by_cases ht : site.controller.controllerType = "UDM-Pro" <;>
    simp [hid, ht, String.append_assoc, String.append_empty]

/-- Claim C9: in the `src/controller.go` builder, every builder whose http
client was never created (no `SetRequestTimout` call) makes `Build`
dereference the nil client while validating the timeout, so `Build` does not
return normally on such input, and consequently the later create-if-missing
branch is unreachable: a built controller only ever arises from a builder that
already had a client. -/
theorem c9_build_reads_nil_client :
    ∀ (b : V2.ControllerBuilder),
      (b.controller.httpClient = none → V2.build b true = V2.BuildOutcome.panicNilClient) ∧
      (∀ parseOk c, V2.build b parseOk = V2.BuildOutcome.ok c →
        b.controller.httpClient ≠ none) := by
  intro b
  constructor
  · intro h
    simp [V2.build, h]
  · intro parseOk c hc hnone
    cases parseOk <;> simp [V2.build, hnone] at hc

/-- Witness for C9: a builder configured with base URL and TLS flag but
without `SetRequestTimout` drives `Build` into the nil dereference. -/
theorem c9_witness :
    V2.build (V2.setTlsVerification (V2.setBaseUrl V2.newControllerBuilder "https://unifi") true)
        true = V2.BuildOutcome.panicNilClient :=
  (c9_build_reads_nil_client
    (V2.setTlsVerification (V2.setBaseUrl V2.newControllerBuilder "https://unifi") true)).1 rfl
